import Mathlib

/-!
Shallow embedding of the Fetch layer of a Kafka client library
(`fetch.go`): the `Fetch` and `MultiFetch` client operations and the
versioned V2 wire-codec types, together with models of the helpers they
call (error mapper, duration conversions, record reader construction,
write buffer) whose sources are outside the provided tree.

Go machine integers are modelled as unbounded `Int` with explicit
two's-complement narrowing applied exactly where the source performs a
narrowing conversion.  Fallible operations return `Except`.  The
round-trip transport is a function parameter; the remaining context
deadline is an `Int` parameter standing for the value of
`c.timeout(ctx, math.MaxInt64)`.
-/

/-- Two's-complement narrowing of a 64-bit value to 32 bits, as performed by
the Go conversion `int32(x)`: reduction modulo `2^32` into `[-2^31, 2^31)`. -/
def int32of (x : Int) : Int := (x + 2 ^ 31) % 2 ^ 32 - 2 ^ 31

/-- Two's-complement narrowing to 8 bits, as performed by `int8(x)`. -/
def int8of (x : Int) : Int := (x + 2 ^ 7) % 2 ^ 8 - 2 ^ 7

/-- Modelled from the spec: `defaultMaxWait` is the fixed positive constant
used when `MaxWait` is unset; its definition is not under the provided
sources.  Durations are nanosecond counts, so this is 500ms. -/
def defaultMaxWait : Int := 500000000

/-- Modelled from the spec: `milliseconds` converts a duration (nanoseconds)
to the 32-bit millisecond count placed in the wire request; the helper is not
under the provided sources. -/
def milliseconds (d : Int) : Int := int32of (d / 1000000)

/-- Modelled from the spec: `makeDuration` converts a broker-reported 32-bit
millisecond count into a duration (nanoseconds); the helper is not under the
provided sources. -/
def makeDuration (ms : Int) : Int := ms * 1000000

/-- Structured broker error produced by the error mapper, carrying the numeric
broker error code.  The call sites in `fetch.go` always pass an empty message
string, so the message field is omitted from the model. -/
structure KError where
  code : Int
deriving DecidableEq

/-- Modelled from the spec: the error mapper `makeError` returns nil (`none`)
for code 0 and a structured error carrying the code otherwise; its definition
is not under the provided sources. -/
def makeError (code : Int) : Option KError :=
  if code = 0 then none else some { code := code }

/-- Modelled from the spec: a record reader is a cursor over the list of
records decoded from one broker batch. -/
structure RecordReader where
  records : List Nat
deriving DecidableEq

/-- Modelled from the spec: `NewRecordReader()` with no arguments builds an
empty, immediately exhausted record reader. -/
def NewRecordReader : RecordReader := { records := [] }

/-- Wire fetch request partition entry (`fetchAPI.RequestPartition`). -/
structure fetchAPI.RequestPartition where
  Partition : Int
  CurrentLeaderEpoch : Int
  FetchOffset : Int
  LogStartOffset : Int
  PartitionMaxBytes : Int
deriving DecidableEq

/-- Wire fetch request topic entry (`fetchAPI.RequestTopic`). -/
structure fetchAPI.RequestTopic where
  Topic : String
  Partitions : List fetchAPI.RequestPartition
deriving DecidableEq

/-- Wire fetch request (`fetchAPI.Request`), restricted to the fields the
client sets.  Fields left unset by a Go composite literal are zero. -/
structure fetchAPI.Request where
  ReplicaID : Int
  MaxWaitTime : Int
  MinBytes : Int
  MaxBytes : Int
  IsolationLevel : Int
  SessionID : Int
  SessionEpoch : Int
  Topics : List fetchAPI.RequestTopic
deriving DecidableEq

/-- Wire fetch response partition entry (`fetchAPI.ResponsePartition`),
restricted to the fields the client reads.  `Records` models the
`RecordSet.Records` reader, which may be nil (`none`). -/
structure fetchAPI.ResponsePartition where
  Partition : Int
  ErrorCode : Int
  HighWatermark : Int
  LastStableOffset : Int
  LogStartOffset : Int
  Records : Option RecordReader
deriving DecidableEq

/-- Wire fetch response topic entry (`fetchAPI.ResponseTopic`). -/
structure fetchAPI.ResponseTopic where
  Topic : String
  Partitions : List fetchAPI.ResponsePartition
deriving DecidableEq

/-- Wire fetch response (`fetchAPI.Response`), restricted to the fields the
client reads. -/
structure fetchAPI.Response where
  ThrottleTimeMs : Int
  ErrorCode : Int
  Topics : List fetchAPI.ResponseTopic
deriving DecidableEq

/-- Round-trip transport: sends one wire request to the addressed broker and
returns the decoded response or a transport error.  Models `c.roundTrip`. -/
def Transport : Type :=
  String → fetchAPI.Request → Except String fetchAPI.Response

/-- Single-partition fetch request (`FetchRequest`). -/
structure FetchRequest where
  Addr : String
  Topic : String
  Partition : Int
  Offset : Int
  MinBytes : Int
  MaxBytes : Int
  MaxWait : Int
  IsolationLevel : Int
deriving DecidableEq

/-- Effective max wait of a fetch request (`FetchRequest.maxWait`): the
request's `MaxWait` when positive, `defaultMaxWait` otherwise. -/
def FetchRequest.maxWait (req : FetchRequest) : Int :=
  if req.MaxWait > 0 then req.MaxWait else defaultMaxWait

/-- Result of one fetch (`FetchResponse`).  `Error` is `none` for nil;
`Records` is `none` while the reader is nil. -/
structure FetchResponse where
  Throttle : Int
  Topic : String
  Partition : Int
  HighWatermark : Int
  LastStableOffset : Int
  LogStartOffset : Int
  Error : Option KError
  Records : Option RecordReader
deriving DecidableEq

/-- Failure modes of `Client.Fetch` / `Client.MultiFetch`: a wrapped transport
error, or the protocol errors `ErrNoTopic` / `ErrNoPartition`. -/
inductive FetchFailure where
  | transport (e : String)
  | noTopic
  | noPartition
deriving DecidableEq

/-- Wire request built by `Client.Fetch` (the `fetchAPI.Request` literal at
fetch.go lines 93-111), given the remaining context deadline `ctxTimeout`. -/
def Client.fetchWireRequest (ctxTimeout : Int) (req : FetchRequest) :
    fetchAPI.Request :=
  let timeout := ctxTimeout
  let maxWait := req.maxWait
  let timeout := if maxWait < timeout then maxWait else timeout
  { ReplicaID := -1
    MaxWaitTime := milliseconds timeout
    MinBytes := int32of req.MinBytes
    MaxBytes := int32of req.MaxBytes
    IsolationLevel := int8of req.IsolationLevel
    SessionID := -1
    SessionEpoch := -1
    Topics := [{ Topic := req.Topic
                 Partitions := [{ Partition := int32of req.Partition
                                  CurrentLeaderEpoch := -1
                                  FetchOffset := req.Offset
                                  LogStartOffset := -1
                                  PartitionMaxBytes := int32of req.MaxBytes }] }] }

/-- Decode phase of `Client.Fetch` (fetch.go lines 117-146): processes the
decoded broker reply, enforcing the non-empty-response invariants, the
error-precedence rule and the empty-record-reader substitution. -/
def Client.fetchDecode (res : fetchAPI.Response) :
    Except FetchFailure FetchResponse :=
  match res.Topics with
  | [] => .error .noTopic
  | topic :: _ =>
    match topic.Partitions with
    | [] => .error .noPartition
    | partition :: _ =>
      let ret : FetchResponse :=
        { Throttle := makeDuration res.ThrottleTimeMs
          Topic := topic.Topic
          Partition := partition.Partition
          Error := makeError res.ErrorCode
          HighWatermark := partition.HighWatermark
          LastStableOffset := partition.LastStableOffset
          LogStartOffset := partition.LogStartOffset
          Records := partition.Records }
      let ret :=
        if partition.ErrorCode ≠ 0 then
          { ret with Error := makeError partition.ErrorCode }
        else ret
      let ret :=
        if ret.Records = none then
          { ret with Records := some NewRecordReader }
        else ret
      .ok ret

/-- The `Client.Fetch` operation.  `ctxTimeout` stands for
`c.timeout(ctx, math.MaxInt64)` (remaining context deadline) and `t` for the
`roundTrip` transport. -/
def Client.Fetch (ctxTimeout : Int) (t : Transport) (req : FetchRequest) :
    Except FetchFailure FetchResponse :=
  match t req.Addr (Client.fetchWireRequest ctxTimeout req) with
  | .error e => .error (.transport e)
  | .ok res => Client.fetchDecode res

/-- Per-partition fetch spec of a multi-fetch (`FetchPartitionRequest`). -/
structure FetchPartitionRequest where
  Partition : Int
  Offset : Int
  MaxBytes : Int
deriving DecidableEq

/-- Per-partition result of a multi-fetch (`FetchPartitionResponse`). -/
structure FetchPartitionResponse where
  Partition : Int
  Error : Option KError
  HighWatermark : Int
  LastStableOffset : Int
  LogStartOffset : Int
  Records : Option RecordReader
deriving DecidableEq

/-- Multi-partition fetch request (`MultiFetchRequest`).  The Go
`map[string][]FetchPartitionRequest` is modelled as an association list; Go
map iteration order is arbitrary, and no claim depends on it. -/
structure MultiFetchRequest where
  Addr : String
  Requests : List (String × List FetchPartitionRequest)
  MinBytes : Int
  MaxBytes : Int
  MaxWait : Int
  IsolationLevel : Int
deriving DecidableEq

/-- Result of a multi-fetch (`MultiFetchResponse`).  The Go
`map[string][]FetchPartitionResponse` is modelled as an association list with
Go map-assignment (upsert) semantics; `none` models the nil map. -/
structure MultiFetchResponse where
  Throttle : Int
  Responses : Option (List (String × List FetchPartitionResponse))
  Error : Option KError
deriving DecidableEq

/-- Effective max wait of a multi-fetch request (`MultiFetchRequest.maxWait`):
the request's `MaxWait` when positive, `defaultMaxWait` otherwise. -/
def MultiFetchRequest.maxWait (req : MultiFetchRequest) : Int :=
  if req.MaxWait > 0 then req.MaxWait else defaultMaxWait

/-- Go map assignment `m[k] = v`: replaces the value bound to `k` when `k` is
already present, inserts the binding otherwise. -/
def mapAssign {α : Type} (m : List (String × α)) (k : String) (v : α) :
    List (String × α) :=
  match m with
  | [] => [(k, v)]
  | (k0, v0) :: rest =>
    if k0 = k then (k, v) :: rest else (k0, v0) :: mapAssign rest k v

/-- Wire topic list built by `Client.MultiFetch` from the request mapping
(fetch.go lines 220-243), with the per-partition `MaxBytes` fallback. -/
def Client.multiFetchWireTopics (req : MultiFetchRequest) :
    List fetchAPI.RequestTopic :=
  req.Requests.map fun tp =>
    { Topic := tp.1
      Partitions := tp.2.map fun partition =>
        let maxBytes := partition.MaxBytes
        let maxBytes := if maxBytes = 0 then req.MaxBytes else maxBytes
        { Partition := int32of partition.Partition
          CurrentLeaderEpoch := -1
          FetchOffset := partition.Offset
          LogStartOffset := -1
          PartitionMaxBytes := int32of maxBytes } }

/-- Wire request built by `Client.MultiFetch` (the `fetchAPI.Request` literal
at fetch.go lines 256-263).  `SessionID` and `SessionEpoch` are left at the Go
zero value because the literal does not set them. -/
def Client.multiFetchWireRequest (ctxTimeout : Int) (req : MultiFetchRequest) :
    fetchAPI.Request :=
  let timeout := ctxTimeout
  let maxWait := req.maxWait
  let timeout := if maxWait < timeout then maxWait else timeout
  { ReplicaID := -1
    MaxWaitTime := milliseconds timeout
    MinBytes := int32of req.MinBytes
    MaxBytes := int32of req.MaxBytes
    IsolationLevel := int8of req.IsolationLevel
    SessionID := 0
    SessionEpoch := 0
    Topics := Client.multiFetchWireTopics req }

/-- Decoding of one response topic's partition list into
`FetchPartitionResponse` values (the inner loop of fetch.go lines 280-297),
including the empty-record-reader substitution. -/
def Client.decodeFetchPartitions (ps : List fetchAPI.ResponsePartition) :
    List FetchPartitionResponse :=
  ps.map fun p =>
    let pr : FetchPartitionResponse :=
      { Partition := p.Partition
        Error := makeError p.ErrorCode
        HighWatermark := p.HighWatermark
        LastStableOffset := p.LastStableOffset
        LogStartOffset := p.LogStartOffset
        Records := p.Records }
    if pr.Records = none then { pr with Records := some NewRecordReader }
    else pr

/-- Construction of the `Responses` map from the decoded topics (the outer
loop of fetch.go lines 279-300): one Go map assignment per decoded topic
entry, in decoded order. -/
def Client.multiFetchResponses (ts : List fetchAPI.ResponseTopic) :
    List (String × List FetchPartitionResponse) :=
  ts.foldl (fun acc t => mapAssign acc t.Topic (Client.decodeFetchPartitions t.Partitions)) []

/-- The `Client.MultiFetch` operation.  The second component of the result
counts how many round-trip transport calls were made (0 or 1), to make the
fail-fast behaviour observable. -/
def Client.MultiFetch (ctxTimeout : Int) (t : Transport)
    (req : MultiFetchRequest) :
    Except FetchFailure MultiFetchResponse × Nat :=
  let topics := Client.multiFetchWireTopics req
  if topics.isEmpty then (.error .noTopic, 0)
  else
    match t req.Addr (Client.multiFetchWireRequest ctxTimeout req) with
    | .error e => (.error (.transport e), 1)
    | .ok res =>
      let responses :=
        if res.Topics.isEmpty then none
        else some (Client.multiFetchResponses res.Topics)
      (.ok { Throttle := makeDuration res.ThrottleTimeMs
             Responses := responses
             Error := makeError res.ErrorCode }, 1)

/-- Big-endian byte list of the `w` low-order bytes of `n`. -/
def bytesBE : Nat → Nat → List Nat
  | 0, _ => []
  | w + 1, n => (n / 2 ^ (8 * w)) % 256 :: bytesBE w n

/-- Modelled from the spec: `writeBuffer.writeInt16` emits 2 big-endian bytes
of the value's two's-complement representation; the write buffer is not under
the provided sources. -/
def writeInt16 (x : Int) : List Nat := bytesBE 2 (x % 2 ^ 16).toNat

/-- Modelled from the spec: `writeBuffer.writeInt32` emits 4 big-endian bytes. -/
def writeInt32 (x : Int) : List Nat := bytesBE 4 (x % 2 ^ 32).toNat

/-- Modelled from the spec: `writeBuffer.writeInt64` emits 8 big-endian bytes. -/
def writeInt64 (x : Int) : List Nat := bytesBE 8 (x % 2 ^ 64).toNat

/-- Byte list of a wire string's contents. -/
def strBytes (s : String) : List Nat :=
  s.toUTF8.toList.map fun b => b.toNat

/-- Modelled from the spec: a wire string is a 2-byte length prefix followed
by the string's bytes (`writeBuffer.writeString`). -/
def writeString (s : String) : List Nat :=
  writeInt16 (strBytes s).length ++ strBytes s

/-- Modelled from the spec: a wire array is a 4-byte element count followed by
the elements' encodings (`writeBuffer.writeArray`). -/
def writeArray {α : Type} (xs : List α) (f : α → List Nat) : List Nat :=
  writeInt32 xs.length ++ (xs.map f).flatten

/-- Modelled from the spec: `sizeofString` is the 2-byte length prefix plus
the string's bytes; the helper is not under the provided sources. -/
def sizeofString (s : String) : Int := 2 + (strBytes s).length

/-- Modelled from the spec: `sizeofArray` is the 4-byte element count plus the
sum of the per-element sizes; the helper is not under the provided sources. -/
def sizeofArray {α : Type} (xs : List α) (f : α → Int) : Int :=
  4 + (xs.map f).sum

/-- Modelled from the spec: `messageSet` is an encodable wire unit that obeys
the codec's size/writeTo contract; its definition is not under the provided
sources, so it is abstracted as the byte payload it serializes to. -/
structure messageSet where
  payload : List Nat
deriving DecidableEq

/-- Size of a message set: the length of its serialized payload. -/
def messageSet.size (m : messageSet) : Int := m.payload.length

/-- Serialization of a message set: its payload bytes. -/
def messageSet.writeTo (m : messageSet) : List Nat := m.payload

/-- Version-2 fetch request partition entry (`fetchRequestPartitionV2`). -/
structure fetchRequestPartitionV2 where
  Partition : Int
  FetchOffset : Int
  MaxBytes : Int
deriving DecidableEq

/-- Declared size of a V2 request partition entry: `4 + 8 + 4`. -/
def fetchRequestPartitionV2.size (_ : fetchRequestPartitionV2) : Int :=
  4 + 8 + 4

/-- Serialization of a V2 request partition entry. -/
def fetchRequestPartitionV2.writeTo (p : fetchRequestPartitionV2) : List Nat :=
  writeInt32 p.Partition ++ writeInt64 p.FetchOffset ++ writeInt32 p.MaxBytes

/-- Version-2 fetch request topic entry (`fetchRequestTopicV2`). -/
structure fetchRequestTopicV2 where
  TopicName : String
  Partitions : List fetchRequestPartitionV2
deriving DecidableEq

/-- Declared size of a V2 request topic entry. -/
def fetchRequestTopicV2.size (t : fetchRequestTopicV2) : Int :=
  sizeofString t.TopicName +
    sizeofArray t.Partitions fun p => p.size

/-- Serialization of a V2 request topic entry. -/
def fetchRequestTopicV2.writeTo (t : fetchRequestTopicV2) : List Nat :=
  writeString t.TopicName ++ writeArray t.Partitions fun p => p.writeTo

/-- Version-2 fetch request (`fetchRequestV2`). -/
structure fetchRequestV2 where
  ReplicaID : Int
  MaxWaitTime : Int
  MinBytes : Int
  Topics : List fetchRequestTopicV2
deriving DecidableEq

/-- Declared size of a V2 fetch request. -/
def fetchRequestV2.size (r : fetchRequestV2) : Int :=
  4 + 4 + 4 + sizeofArray r.Topics fun t => t.size

/-- Serialization of a V2 fetch request. -/
def fetchRequestV2.writeTo (r : fetchRequestV2) : List Nat :=
  writeInt32 r.ReplicaID ++ writeInt32 r.MaxWaitTime ++ writeInt32 r.MinBytes ++
    writeArray r.Topics fun t => t.writeTo

/-- Version-2 fetch response partition entry (`fetchResponsePartitionV2`). -/
structure fetchResponsePartitionV2 where
  Partition : Int
  ErrorCode : Int
  HighwaterMarkOffset : Int
  MessageSetSize : Int
  MessageSet : messageSet
deriving DecidableEq

/-- Declared size of a V2 response partition entry. -/
def fetchResponsePartitionV2.size (p : fetchResponsePartitionV2) : Int :=
  4 + 2 + 8 + 4 + p.MessageSet.size

/-- Serialization of a V2 response partition entry. -/
def fetchResponsePartitionV2.writeTo (p : fetchResponsePartitionV2) :
    List Nat :=
  writeInt32 p.Partition ++ writeInt16 p.ErrorCode ++
    writeInt64 p.HighwaterMarkOffset ++ writeInt32 p.MessageSetSize ++
    p.MessageSet.writeTo

/-- Version-2 fetch response topic entry (`fetchResponseTopicV2`). -/
structure fetchResponseTopicV2 where
  TopicName : String
  Partitions : List fetchResponsePartitionV2
deriving DecidableEq

/-- Declared size of a V2 response topic entry. -/
def fetchResponseTopicV2.size (t : fetchResponseTopicV2) : Int :=
  sizeofString t.TopicName +
    sizeofArray t.Partitions fun p => p.size

/-- Serialization of a V2 response topic entry. -/
def fetchResponseTopicV2.writeTo (t : fetchResponseTopicV2) : List Nat :=
  writeString t.TopicName ++ writeArray t.Partitions fun p => p.writeTo

/-- Version-2 fetch response (`fetchResponseV2`). -/
structure fetchResponseV2 where
  ThrottleTime : Int
  Topics : List fetchResponseTopicV2
deriving DecidableEq

/-- Declared size of a V2 fetch response. -/
def fetchResponseV2.size (r : fetchResponseV2) : Int :=
  4 + sizeofArray r.Topics fun t => t.size

/-- Serialization of a V2 fetch response. -/
def fetchResponseV2.writeTo (r : fetchResponseV2) : List Nat :=
  writeInt32 r.ThrottleTime ++ writeArray r.Topics fun t => t.writeTo

/-- Sample topic name used by the concrete scenarios below. -/
def topicA : String := "a"

/-- Second sample topic name. -/
def topicB : String := "b"

/-- Sample broker address. -/
def addr0 : String := "broker0"

/-- Transport that answers every request with the fixed decoded response
`r`. -/
def constTransport (r : fetchAPI.Response) : Transport :=
  fun _ _ => Except.ok r

/-- Decoded reply partition with no error, high watermark 100 and a nil
record reader. -/
def partNoErr : fetchAPI.ResponsePartition :=
  { Partition := 0
    ErrorCode := 0
    HighWatermark := 100
    LastStableOffset := 0
    LogStartOffset := 0
    Records := none }

/-- Decoded reply partition carrying partition-level error code 3. -/
def partErr3 : fetchAPI.ResponsePartition :=
  { Partition := 0
    ErrorCode := 3
    HighWatermark := 0
    LastStableOffset := 0
    LogStartOffset := 0
    Records := none }

/-- Decoded reply partition with no error and high watermark 7. -/
def partHW7 : fetchAPI.ResponsePartition :=
  { Partition := 1
    ErrorCode := 0
    HighWatermark := 7
    LastStableOffset := 0
    LogStartOffset := 0
    Records := none }

/-- Decoded reply topic entry for `topicB` holding `partNoErr`. -/
def topicEntryB : fetchAPI.ResponseTopic :=
  { Topic := topicB, Partitions := [partNoErr] }

/-- Decoded reply whose single topic is `topicB`. -/
def resTopicB : fetchAPI.Response :=
  { ThrottleTimeMs := 0, ErrorCode := 0, Topics := [topicEntryB] }

/-- Decoded reply with both a global error code (5) and a partition error
code (3). -/
def resBothCodes : fetchAPI.Response :=
  { ThrottleTimeMs := 0
    ErrorCode := 5
    Topics := [{ Topic := topicA, Partitions := [partErr3] }] }

/-- Decoded reply containing zero topics. -/
def resNoTopics : fetchAPI.Response :=
  { ThrottleTimeMs := 0, ErrorCode := 0, Topics := [] }

/-- Decoded reply whose single topic contains zero partitions. -/
def resNoParts : fetchAPI.Response :=
  { ThrottleTimeMs := 0
    ErrorCode := 0
    Topics := [{ Topic := topicA, Partitions := [] }] }

/-- Decoded reply containing two entries for the same topic name `topicA`. -/
def resDupTopics : fetchAPI.Response :=
  { ThrottleTimeMs := 0
    ErrorCode := 0
    Topics := [{ Topic := topicA, Partitions := [partNoErr] },
               { Topic := topicA, Partitions := [partHW7] }] }

/-- Sample single-partition fetch request for `topicA`. -/
def reqA : FetchRequest :=
  { Addr := addr0
    Topic := topicA
    Partition := 0
    Offset := 42
    MinBytes := 1
    MaxBytes := 1000
    MaxWait := 1000000
    IsolationLevel := 0 }

/-- Multi-fetch request whose single topic has an empty partition-spec
list. -/
def mreqEmptyParts : MultiFetchRequest :=
  { Addr := addr0
    Requests := [(topicA, [])]
    MinBytes := 1
    MaxBytes := 100
    MaxWait := 1000000
    IsolationLevel := 0 }

/-- Multi-fetch request with an empty topic mapping. -/
def mreqNoTopics : MultiFetchRequest :=
  { Addr := addr0
    Requests := []
    MinBytes := 1
    MaxBytes := 100
    MaxWait := 1000000
    IsolationLevel := 0 }

/-- Multi-fetch request whose single partition spec has `MaxBytes = -1`
while the request-level `MaxBytes` is 100. -/
def mreqNegMaxBytes : MultiFetchRequest :=
  { Addr := addr0
    Requests := [(topicA, [{ Partition := 0, Offset := 0, MaxBytes := -1 }])]
    MinBytes := 1
    MaxBytes := 100
    MaxWait := 1000000
    IsolationLevel := 0 }

/-- Fetch result produced for `reqA` against `resTopicB`. -/
def retB0 : FetchResponse :=
  { Throttle := 0
    Topic := topicB
    Partition := 0
    HighWatermark := 100
    LastStableOffset := 0
    LogStartOffset := 0
    Error := none
    Records := some NewRecordReader }

/-- Fetch result produced for `reqA` against `resBothCodes`. -/
def retBoth : FetchResponse :=
  { Throttle := 0
    Topic := topicA
    Partition := 0
    HighWatermark := 0
    LastStableOffset := 0
    LogStartOffset := 0
    Error := some { code := 3 }
    Records := some NewRecordReader }

/-- Decoded per-partition result of `partNoErr`. -/
def prB0 : FetchPartitionResponse :=
  { Partition := 0
    Error := none
    HighWatermark := 100
    LastStableOffset := 0
    LogStartOffset := 0
    Records := some NewRecordReader }

/-- Decoded per-partition result of `partHW7`. -/
def prHW7 : FetchPartitionResponse :=
  { Partition := 1
    Error := none
    HighWatermark := 7
    LastStableOffset := 0
    LogStartOffset := 0
    Records := some NewRecordReader }

/-- Multi-fetch result produced against `resTopicB`. -/
def mretB0 : MultiFetchResponse :=
  { Throttle := 0
    Responses := some [(topicB, [prB0])]
    Error := none }

/-- Multi-fetch result produced against `resDupTopics`: only the second
entry for `topicA` survives the Go map assignment. -/
def mretDup : MultiFetchResponse :=
  { Throttle := 0
    Responses := some [(topicA, [prHW7])]
    Error := none }

theorem if_lt_eq_min (a b : Int) : (if a < b then a else b) = min b a := by
  rw [min_def]
  split <;> split <;> omega

/-- C3: a decoded broker reply with zero topics makes `Fetch` return the
no-topic protocol error and no response value; a reply whose single topic has
zero partitions makes it return the no-partition protocol error. -/
theorem fetch_empty_reply_errors (ctx : Int) (t : Transport)
    (req : FetchRequest) (res : fetchAPI.Response)
    (h : t req.Addr (Client.fetchWireRequest ctx req) = Except.ok res) :
    (res.Topics = [] →
      Client.Fetch ctx t req = Except.error FetchFailure.noTopic) ∧
    (∀ topic, res.Topics = [topic] → topic.Partitions = [] →
      Client.Fetch ctx t req = Except.error FetchFailure.noPartition) := by
  constructor
  · intro h0
    simp [Client.Fetch, h, Client.fetchDecode, h0]
  · intro topic h1 h2
    simp [Client.Fetch, h, Client.fetchDecode, h1, h2]

/-- Witness for `fetch_empty_reply_errors` at concrete replies. -/
theorem fetch_empty_reply_errors_witness :
    Client.Fetch 1000000000 (constTransport resNoTopics) reqA
        = Except.error FetchFailure.noTopic ∧
    Client.Fetch 1000000000 (constTransport resNoParts) reqA
        = Except.error FetchFailure.noPartition :=
  ⟨(fetch_empty_reply_errors 1000000000 (constTransport resNoTopics) reqA
      resNoTopics rfl).1 rfl,
   (fetch_empty_reply_errors 1000000000 (constTransport resNoParts) reqA
      resNoParts rfl).2 { Topic := topicA, Partitions := [] } rfl rfl⟩

/-- C10: both operations narrow the 64-bit `MinBytes` and `MaxBytes` request
fields to 32 bits (two's-complement reduction modulo `2^32`) when placing
them in the wire request, and at magnitude `2^31` the wire value differs from
the caller-supplied value, with no error or clamping. -/
theorem fetch_wire_minmax_narrowed (ctx : Int) (req : FetchRequest)
    (mreq : MultiFetchRequest) :
    (Client.fetchWireRequest ctx req).MinBytes = int32of req.MinBytes ∧
    (Client.fetchWireRequest ctx req).MaxBytes = int32of req.MaxBytes ∧
    (Client.multiFetchWireRequest ctx mreq).MinBytes = int32of mreq.MinBytes ∧
    (Client.multiFetchWireRequest ctx mreq).MaxBytes = int32of mreq.MaxBytes ∧
    int32of (2 ^ 31) = -(2 ^ 31) ∧ int32of (2 ^ 31) ≠ 2 ^ 31 := by
  refine ⟨rfl, rfl, rfl, rfl, by decide, by decide⟩

/-- C7: the wire `MaxWaitTime` of both operations is computed from the
minimum of the remaining context deadline and the effective max wait, where
the effective max wait is the request's `MaxWait` when positive and
`defaultMaxWait` otherwise. -/
theorem fetch_wire_maxwaittime_min (ctx : Int) (req : FetchRequest)
    (mreq : MultiFetchRequest) :
    (Client.fetchWireRequest ctx req).MaxWaitTime
        = milliseconds
            (min ctx (if req.MaxWait > 0 then req.MaxWait else defaultMaxWait)) ∧
    (Client.multiFetchWireRequest ctx mreq).MaxWaitTime
        = milliseconds
            (min ctx (if mreq.MaxWait > 0 then mreq.MaxWait else defaultMaxWait)) := by
  constructor
  · show milliseconds (if req.maxWait < ctx then req.maxWait else ctx) = _
    rw [if_lt_eq_min]
    rfl
  · show milliseconds (if mreq.maxWait < ctx then mreq.maxWait else ctx) = _
    rw [if_lt_eq_min]
    rfl

/-- C2 counterexample: a multi-fetch request holding one topic whose
partition-spec list is empty does not contain "at least one topic with at
least one partition spec", yet `MultiFetch` performs the round trip (the
transport call count is 1) and returns a successful response instead of an
error. -/
theorem multifetch_empty_partition_list_roundtrips :
    (Client.MultiFetch 1000000000 (constTransport resTopicB) mreqEmptyParts).2
        = 1 ∧
    (Client.MultiFetch 1000000000 (constTransport resTopicB) mreqEmptyParts).1
        = Except.ok mretB0 :=
  ⟨rfl, rfl⟩

/-- C2 (amended): only a multi-fetch request whose topic mapping is entirely
empty is rejected with the no-topic error before any transport call; a topic
with an empty partition-spec list still counts as a topic and is sent. -/
theorem multifetch_empty_mapping_fails_fast (ctx : Int) (t : Transport)
    (req : MultiFetchRequest) (h : req.Requests = []) :
    Client.MultiFetch ctx t req = (Except.error FetchFailure.noTopic, 0) := by
  simp [Client.MultiFetch, Client.multiFetchWireTopics, h]

/-- Witness for `multifetch_empty_mapping_fails_fast`. -/
theorem multifetch_empty_mapping_fails_fast_witness :
    Client.MultiFetch 0 (constTransport resTopicB) mreqNoTopics
      = (Except.error FetchFailure.noTopic, 0) :=
  multifetch_empty_mapping_fails_fast 0 (constTransport resTopicB)
    mreqNoTopics rfl

/-- C6 counterexample: a partition spec with negative `MaxBytes` (-1) keeps
-1 as the wire `PartitionMaxBytes`; it is not replaced by the request-level
`MaxBytes` (100), contradicting the claimed fallback for non-positive
values. -/
theorem multifetch_negative_maxbytes_kept :
    Client.multiFetchWireTopics mreqNegMaxBytes
      = [{ Topic := topicA
           Partitions := [{ Partition := 0
                            CurrentLeaderEpoch := -1
                            FetchOffset := 0
                            LogStartOffset := -1
                            PartitionMaxBytes := -1 }] }] ∧
    mreqNegMaxBytes.MaxBytes = 100 ∧ (-1 : Int) ≠ 100 := by
  refine ⟨by decide, rfl, by decide⟩

/-- C6 (amended): the wire `PartitionMaxBytes` for each partition spec is the
32-bit narrowing of the spec's `MaxBytes` whenever that value is non-zero
(negative values included), and of the request-level `MaxBytes` exactly when
the spec's `MaxBytes` is zero. -/
theorem multifetch_partition_maxbytes_fallback (req : MultiFetchRequest)
    (i j : Nat) (hi : i < req.Requests.length)
    (hj : j < ((req.Requests.get ⟨i, hi⟩).2).length)
    (hi' : i < (Client.multiFetchWireTopics req).length)
    (hj' : j < (((Client.multiFetchWireTopics req).get ⟨i, hi'⟩).Partitions).length) :
    ((((Client.multiFetchWireTopics req).get ⟨i, hi'⟩).Partitions).get
        ⟨j, hj'⟩).PartitionMaxBytes
      = (if ((req.Requests.get ⟨i, hi⟩).2.get ⟨j, hj⟩).MaxBytes = 0
         then int32of req.MaxBytes
         else int32of ((req.Requests.get ⟨i, hi⟩).2.get ⟨j, hj⟩).MaxBytes) := by
  simp only [Client.multiFetchWireTopics, List.get_eq_getElem, List.getElem_map]
  split <;> rfl

/-- Witness for `multifetch_partition_maxbytes_fallback` at the concrete
request `mreqNegMaxBytes`. -/
theorem multifetch_partition_maxbytes_fallback_witness :
    0 < mreqNegMaxBytes.Requests.length ∧
    ((((Client.multiFetchWireTopics mreqNegMaxBytes).get
          ⟨0, by decide⟩).Partitions).get ⟨0, by decide⟩).PartitionMaxBytes
      = int32of (-1) :=
  ⟨by decide,
   by
    have h := multifetch_partition_maxbytes_fallback mreqNegMaxBytes 0 0
      (by decide) (by decide) (by decide) (by decide)
    simpa using h⟩

/-- C8 counterexample: a successful `Fetch` whose broker reply names a
different topic than the request returns that reply's topic, so the returned
`Topic` does not match the request's `Topic`. -/
theorem fetch_topic_mismatch_possible :
    Client.Fetch 1000000000 (constTransport resTopicB) reqA
        = Except.ok retB0 ∧
    retB0.Topic ≠ reqA.Topic :=
  ⟨rfl, by decide⟩

/-- C8 (amended): on success the returned `Topic` and `Partition` are those
of the first topic and first partition entry of the decoded broker reply;
they match the request exactly when the broker echoes the requested topic and
partition, which the implementation does not verify. -/
theorem fetch_topic_partition_from_reply (ctx : Int) (t : Transport)
    (req : FetchRequest) (res : fetchAPI.Response)
    (topic : fetchAPI.ResponseTopic) (p : fetchAPI.ResponsePartition)
    (moreT : List fetchAPI.ResponseTopic)
    (moreP : List fetchAPI.ResponsePartition) (ret : FetchResponse)
    (ht : t req.Addr (Client.fetchWireRequest ctx req) = Except.ok res)
    (hT : res.Topics = topic :: moreT)
    (hP : topic.Partitions = p :: moreP)
    (hr : Client.Fetch ctx t req = Except.ok ret) :
    ret.Topic = topic.Topic ∧ ret.Partition = p.Partition := by
  unfold Client.Fetch at hr
  rw [ht] at hr
  obtain ⟨thr, ec, tops⟩ := res
  simp only at hT
  subst hT
  obtain ⟨tname, parts⟩ := topic
  simp only at hP
  subst hP
  simp only [Client.fetchDecode, Except.ok.injEq] at hr
  subst hr
  constructor <;> (split <;> split <;> rfl)

/-- Witness for `fetch_topic_partition_from_reply` at the concrete reply
`resTopicB`. -/
theorem fetch_topic_partition_from_reply_witness :
    retB0.Topic = topicEntryB.Topic ∧ retB0.Partition = partNoErr.Partition :=
  fetch_topic_partition_from_reply 1000000000 (constTransport resTopicB) reqA
    resTopicB topicEntryB partNoErr [] [] retB0 rfl rfl rfl rfl

/-- C1: for every decoded reply processed by `Fetch`, a non-zero
partition-level error code overrides the global-level code in the returned
`Error`; with a zero partition-level code the `Error` is the mapped
global-level code, which is nil when that code is zero. -/
theorem fetch_error_precedence (ctx : Int) (t : Transport)
    (req : FetchRequest) (res : fetchAPI.Response)
    (topic : fetchAPI.ResponseTopic) (p : fetchAPI.ResponsePartition)
    (moreT : List fetchAPI.ResponseTopic)
    (moreP : List fetchAPI.ResponsePartition) (ret : FetchResponse)
    (ht : t req.Addr (Client.fetchWireRequest ctx req) = Except.ok res)
    (hT : res.Topics = topic :: moreT)
    (hP : topic.Partitions = p :: moreP)
    (hr : Client.Fetch ctx t req = Except.ok ret) :
    (p.ErrorCode ≠ 0 → ret.Error = makeError p.ErrorCode) ∧
    (p.ErrorCode = 0 → ret.Error = makeError res.ErrorCode) ∧
    (p.ErrorCode = 0 → res.ErrorCode = 0 → ret.Error = none) := by
  unfold Client.Fetch at hr
  rw [ht] at hr
  obtain ⟨thr, ec, tops⟩ := res
  simp only at hT ⊢
  subst hT
  obtain ⟨tname, parts⟩ := topic
  simp only at hP
  subst hP
  simp only [Client.fetchDecode, Except.ok.injEq] at hr
  subst hr
  refine ⟨?_, ?_, ?_⟩
  · intro h
    simp only [h, ne_eq, not_false_eq_true, if_true]
    split <;> rfl
  · intro h
    simp only [h, ne_eq, not_true_eq_false, if_false]
    split <;> rfl
  · intro h h2
    simp only [h, h2, ne_eq, not_true_eq_false, if_false, makeError, if_pos rfl]
    split <;> rfl

/-- Witness for `fetch_error_precedence`: with global code 5 and partition
code 3 both set, the returned error is the mapped partition-level error. -/
theorem fetch_error_precedence_witness :
    Client.Fetch 1000000000 (constTransport resBothCodes) reqA
        = Except.ok retBoth ∧
    retBoth.Error = makeError partErr3.ErrorCode :=
  ⟨rfl,
   (fetch_error_precedence 1000000000 (constTransport resBothCodes) reqA
      resBothCodes { Topic := topicA, Partitions := [partErr3] } partErr3
      [] [] retBoth rfl rfl rfl rfl).1 (by decide)⟩

theorem decodeFetchPartitions_records_isSome
    (ps : List fetchAPI.ResponsePartition) :
    ∀ pr ∈ Client.decodeFetchPartitions ps, pr.Records.isSome = true := by
  intro pr hpr
  simp only [Client.decodeFetchPartitions, List.mem_map] at hpr
  obtain ⟨p, _, heq⟩ := hpr
  subst heq
  by_cases h : p.Records = none
  · simp [h]
  · simp only [h, if_false]
    simpa [Option.isSome_iff_ne_none] using h

theorem mapAssign_forall {α : Type} (P : α → Prop)
    (m : List (String × α)) (k : String) (v : α)
    (hm : ∀ kv ∈ m, P kv.2) (hv : P v) :
    ∀ kv ∈ mapAssign m k v, P kv.2 := by
  induction m with
  | nil =>
    intro kv hkv
    simp only [mapAssign, List.mem_singleton] at hkv
    subst hkv
    exact hv
  | cons hd tl ih =>
    intro kv hkv
    simp only [mapAssign] at hkv
    split at hkv
    · rcases List.mem_cons.mp hkv with h | h
      · subst h; exact hv
      · exact hm kv (List.mem_cons_of_mem _ h)
    · rcases List.mem_cons.mp hkv with h | h
      · subst h; exact hm hd (List.mem_cons_self _ _)
      · exact ih (fun kv2 h2 => hm kv2 (List.mem_cons_of_mem _ h2)) kv h

theorem multiFetchFold_forall (ts : List fetchAPI.ResponseTopic)
    (acc : List (String × List FetchPartitionResponse))
    (hacc : ∀ kv ∈ acc, ∀ pr ∈ kv.2, pr.Records.isSome = true) :
    ∀ kv ∈ ts.foldl
        (fun a t => mapAssign a t.Topic
          (Client.decodeFetchPartitions t.Partitions)) acc,
      ∀ pr ∈ kv.2, pr.Records.isSome = true := by
  induction ts generalizing acc with
  | nil => simpa using hacc
  | cons t ts ih =>
    intro kv hkv
    exact ih (mapAssign acc t.Topic (Client.decodeFetchPartitions t.Partitions))
      (mapAssign_forall (fun vs => ∀ pr ∈ vs, pr.Records.isSome = true)
        acc t.Topic (Client.decodeFetchPartitions t.Partitions) hacc
        (fun pr hpr => decodeFetchPartitions_records_isSome t.Partitions pr hpr))
      kv hkv

theorem records_substitution_isSome (r : FetchResponse) :
    (if r.Records = none then { r with Records := some NewRecordReader }
     else r).Records.isSome = true := by
  split
  · rfl
  · rename_i h
    simpa [Option.isSome_iff_ne_none] using h

/-- C4: every successful `Fetch` returns a non-nil record reader, and every
per-partition entry of every successful `MultiFetch` holds a non-nil record
reader; an empty reader is substituted when the decoded reply carries none. -/
theorem fetch_records_never_nil :
    (∀ (ctx : Int) (t : Transport) (req : FetchRequest) (ret : FetchResponse),
      Client.Fetch ctx t req = Except.ok ret → ret.Records.isSome = true) ∧
    (∀ (ctx : Int) (t : Transport) (req : MultiFetchRequest)
        (mret : MultiFetchResponse)
        (m : List (String × List FetchPartitionResponse)),
      (Client.MultiFetch ctx t req).1 = Except.ok mret →
      mret.Responses = some m →
      ∀ kv ∈ m, ∀ pr ∈ kv.2, pr.Records.isSome = true) := by
  constructor
  · intro ctx t req ret hr
    unfold Client.Fetch at hr
    split at hr
    · exact Except.noConfusion hr
    · unfold Client.fetchDecode at hr
      split at hr
      · exact Except.noConfusion hr
      · split at hr
        · exact Except.noConfusion hr
        · simp only [Except.ok.injEq] at hr
          subst hr
          exact records_substitution_isSome _
  · intro ctx t req mret m hr hm kv hkv
    unfold Client.MultiFetch at hr
    by_cases hempty : (Client.multiFetchWireTopics req).isEmpty
    · rw [if_pos hempty] at hr
      exact Except.noConfusion hr
    · rw [if_neg hempty] at hr
      split at hr
      · exact Except.noConfusion hr
      · simp only [Except.ok.injEq] at hr
        subst hr
        simp only at hm
        split at hm
        · exact Option.noConfusion hm
        · simp only [Option.some.injEq] at hm
          subst hm
          simp only [Client.multiFetchResponses] at hkv
          exact multiFetchFold_forall _ [] (by simp) kv hkv

/-- Witness for `fetch_records_never_nil` at the concrete reply `resTopicB`,
whose partition carries a nil reader. -/
theorem fetch_records_never_nil_witness :
    retB0.Records.isSome = true ∧ prB0.Records.isSome = true :=
  ⟨fetch_records_never_nil.1 1000000000 (constTransport resTopicB) reqA
      retB0 rfl,
   fetch_records_never_nil.2 1000000000 (constTransport resTopicB)
      mreqEmptyParts mretB0 [(topicB, [prB0])] rfl rfl
      (topicB, [prB0]) (by simp) prB0 (by simp)⟩

theorem lookup_mapAssign_self {α : Type} (m : List (String × α)) (k : String)
    (v : α) : List.lookup k (mapAssign m k v) = some v := by
  induction m with
  | nil => simp [mapAssign, List.lookup]
  | cons hd tl ih =>
    obtain ⟨k0, v0⟩ := hd
    simp only [mapAssign]
    split
    · simp [List.lookup]
    · rename_i h
      have hne : (k == k0) = false :=
        beq_eq_false_iff_ne.mpr fun e => h e.symm
      simp [List.lookup, hne, ih]

theorem lookup_mapAssign_ne {α : Type} (m : List (String × α)) (k k' : String)
    (v : α) (h : k' ≠ k) :
    List.lookup k' (mapAssign m k v) = List.lookup k' m := by
  induction m with
  | nil => simp [mapAssign, List.lookup, beq_eq_false_iff_ne.mpr h]
  | cons hd tl ih =>
    obtain ⟨k0, v0⟩ := hd
    simp only [mapAssign]
    split
    · rename_i he
      subst he
      simp [List.lookup, beq_eq_false_iff_ne.mpr h]
    · simp [List.lookup, ih]

theorem lookup_multiFetchFold_not_mem (ts : List fetchAPI.ResponseTopic)
    (acc : List (String × List FetchPartitionResponse)) (k : String)
    (h : ∀ t ∈ ts, t.Topic ≠ k) :
    List.lookup k
        (ts.foldl (fun a u => mapAssign a u.Topic
          (Client.decodeFetchPartitions u.Partitions)) acc)
      = List.lookup k acc := by
  induction ts generalizing acc with
  | nil => rfl
  | cons u us ih =>
    simp only [List.foldl_cons]
    rw [ih (mapAssign acc u.Topic (Client.decodeFetchPartitions u.Partitions))
      (fun w hw => h w (List.mem_cons_of_mem _ hw))]
    exact lookup_mapAssign_ne acc u.Topic k _
      (fun e => h u (List.mem_cons_self _ _) e.symm)

theorem lookup_multiFetchFold (ts : List fetchAPI.ResponseTopic)
    (acc : List (String × List FetchPartitionResponse))
    (t : fetchAPI.ResponseTopic) (ht : t ∈ ts)
    (hnd : (ts.map fetchAPI.ResponseTopic.Topic).Nodup) :
    List.lookup t.Topic
        (ts.foldl (fun a u => mapAssign a u.Topic
          (Client.decodeFetchPartitions u.Partitions)) acc)
      = some (Client.decodeFetchPartitions t.Partitions) := by
  induction ts generalizing acc with
  | nil => cases ht
  | cons u us ih =>
    rw [List.map_cons, List.nodup_cons] at hnd
    obtain ⟨hu, hus⟩ := hnd
    simp only [List.foldl_cons]
    rcases List.mem_cons.mp ht with h | h
    · subst h
      rw [lookup_multiFetchFold_not_mem us _ t.Topic
        (fun w hw e => hu (e ▸ List.mem_map_of_mem fetchAPI.ResponseTopic.Topic hw))]
      exact lookup_mapAssign_self acc t.Topic _
    · exact ih _ h hus

/-- C9 (amended): for every successful `MultiFetch`, the `Responses` map has
an entry for every decoded topic, and when the decoded topic names are
pairwise distinct each entry holds exactly that topic entry's partition
responses in decoded order; when the reply repeats a topic name, the later
entry's partitions replace the earlier entry's in the map (Go map
assignment), so they are not preserved side by side. -/
theorem multifetch_responses_by_topic (ctx : Int) (tr : Transport)
    (req : MultiFetchRequest) (res : fetchAPI.Response)
    (mret : MultiFetchResponse)
    (m : List (String × List FetchPartitionResponse))
    (hres : tr req.Addr (Client.multiFetchWireRequest ctx req) = Except.ok res)
    (hr : (Client.MultiFetch ctx tr req).1 = Except.ok mret)
    (hm : mret.Responses = some m)
    (hnd : (res.Topics.map fetchAPI.ResponseTopic.Topic).Nodup)
    (t : fetchAPI.ResponseTopic) (ht : t ∈ res.Topics) :
    List.lookup t.Topic m
      = some (Client.decodeFetchPartitions t.Partitions) := by
  unfold Client.MultiFetch at hr
  by_cases hempty : (Client.multiFetchWireTopics req).isEmpty
  · rw [if_pos hempty] at hr
    exact Except.noConfusion hr
  · rw [if_neg hempty] at hr
    split at hr
    · rename_i e heq
      rw [hres] at heq
      exact Except.noConfusion heq
    · rename_i res2 heq
      rw [hres] at heq
      injection heq with heq
      subst heq
      simp only [Except.ok.injEq] at hr
      subst hr
      simp only at hm
      split at hm
      · exact Option.noConfusion hm
      · simp only [Option.some.injEq] at hm
        subst hm
        simp only [Client.multiFetchResponses]
        exact lookup_multiFetchFold res.Topics [] t ht hnd

/-- Witness for `multifetch_responses_by_topic` at the concrete reply
`resTopicB`. -/
theorem multifetch_responses_by_topic_witness :
    List.lookup topicEntryB.Topic [(topicB, [prB0])]
      = some (Client.decodeFetchPartitions topicEntryB.Partitions) :=
  multifetch_responses_by_topic 1000000000 (constTransport resTopicB)
    mreqEmptyParts resTopicB mretB0 [(topicB, [prB0])] rfl rfl rfl
    (by decide) topicEntryB (by decide)

/-- C9 counterexample: when the decoded reply contains two entries for the
same topic name, the later entry's partition list replaces the earlier one in
the `Responses` map, so the earlier topic entry's decoded partitions are not
preserved. -/
theorem multifetch_duplicate_topic_replaced :
    (Client.MultiFetch 1000000000 (constTransport resDupTopics)
        mreqEmptyParts).1 = Except.ok mretDup ∧
    resDupTopics.Topics.head?
      = some { Topic := topicA, Partitions := [partNoErr] } ∧
    mretDup.Responses = some [(topicA, [prHW7])] ∧
    Client.decodeFetchPartitions [partNoErr] ≠ [prHW7] := by
  refine ⟨rfl, rfl, rfl, by decide⟩

theorem length_bytesBE (w n : Nat) : (bytesBE w n).length = w := by
  induction w with
  | zero => rfl
  | succ w ih => simp [bytesBE, ih]

theorem length_writeInt16 (x : Int) : (writeInt16 x).length = 2 := by
  simp [writeInt16, length_bytesBE]

theorem length_writeInt32 (x : Int) : (writeInt32 x).length = 4 := by
  simp [writeInt32, length_bytesBE]

theorem length_writeInt64 (x : Int) : (writeInt64 x).length = 8 := by
  simp [writeInt64, length_bytesBE]

theorem length_writeString (s : String) :
    ((writeString s).length : Int) = sizeofString s := by
  simp [writeString, sizeofString, length_writeInt16]

theorem length_writeArray {α : Type} (xs : List α) (f : α → List Nat)
    (g : α → Int) (h : ∀ a ∈ xs, ((f a).length : Int) = g a) :
    ((writeArray xs f).length : Int) = sizeofArray xs g := by
  induction xs with
  | nil => simp [writeArray, sizeofArray, length_writeInt32]
  | cons a as ih =>
    have ha := h a (List.mem_cons_self _ _)
    have hs := ih fun b hb => h b (List.mem_cons_of_mem _ hb)
    simp only [writeArray, List.length_append, length_writeInt32,
      List.map_cons, List.length_flatten, List.sum_cons, sizeofArray,
      List.map_map] at *
    push_cast at *
    omega

theorem length_writeTo_messageSet (m : messageSet) :
    ((m.writeTo).length : Int) = m.size := by
  simp [messageSet.writeTo, messageSet.size]

theorem length_writeTo_fetchRequestPartitionV2 (p : fetchRequestPartitionV2) :
    ((p.writeTo).length : Int) = p.size := by
  simp [fetchRequestPartitionV2.writeTo, fetchRequestPartitionV2.size,
    length_writeInt32, length_writeInt64]

theorem length_writeTo_fetchRequestTopicV2 (t : fetchRequestTopicV2) :
    ((t.writeTo).length : Int) = t.size := by
  simp only [fetchRequestTopicV2.writeTo, fetchRequestTopicV2.size,
    List.length_append]
  push_cast
  rw [length_writeString,
    length_writeArray t.Partitions _ _
      fun p _ => length_writeTo_fetchRequestPartitionV2 p]

theorem length_writeTo_fetchRequestV2 (r : fetchRequestV2) :
    ((r.writeTo).length : Int) = r.size := by
  simp only [fetchRequestV2.writeTo, fetchRequestV2.size, List.length_append]
  push_cast
  rw [length_writeInt32, length_writeInt32, length_writeInt32,
    length_writeArray r.Topics _ _
      fun t _ => length_writeTo_fetchRequestTopicV2 t]
  push_cast
  ring

theorem length_writeTo_fetchResponsePartitionV2
    (p : fetchResponsePartitionV2) :
    ((p.writeTo).length : Int) = p.size := by
  simp only [fetchResponsePartitionV2.writeTo, fetchResponsePartitionV2.size,
    List.length_append]
  push_cast
  rw [length_writeInt32, length_writeInt16, length_writeInt64,
    length_writeInt32, length_writeTo_messageSet]
  push_cast
  ring

theorem length_writeTo_fetchResponseTopicV2 (t : fetchResponseTopicV2) :
    ((t.writeTo).length : Int) = t.size := by
  simp only [fetchResponseTopicV2.writeTo, fetchResponseTopicV2.size,
    List.length_append]
  push_cast
  rw [length_writeString,
    length_writeArray t.Partitions _ _
      fun p _ => length_writeTo_fetchResponsePartitionV2 p]

theorem length_writeTo_fetchResponseV2 (r : fetchResponseV2) :
    ((r.writeTo).length : Int) = r.size := by
  simp only [fetchResponseV2.writeTo, fetchResponseV2.size,
    List.length_append]
  push_cast
  rw [length_writeInt32,
    length_writeArray r.Topics _ _
      fun t _ => length_writeTo_fetchResponseTopicV2 t]
  push_cast
  ring

/-- C5: for every value of each versioned wire type, the number of bytes
emitted by `writeTo` equals the value returned by `size`, including values
with zero-length strings, zero-length arrays and -1 sentinel fields. -/
theorem wire_writeTo_length_eq_size (p : fetchRequestPartitionV2)
    (t : fetchRequestTopicV2) (r : fetchRequestV2)
    (q : fetchResponsePartitionV2) (u : fetchResponseTopicV2)
    (w : fetchResponseV2) :
    ((p.writeTo).length : Int) = p.size ∧
    ((t.writeTo).length : Int) = t.size ∧
    ((r.writeTo).length : Int) = r.size ∧
    ((q.writeTo).length : Int) = q.size ∧
    ((u.writeTo).length : Int) = u.size ∧
    ((w.writeTo).length : Int) = w.size :=
  ⟨length_writeTo_fetchRequestPartitionV2 p,
   length_writeTo_fetchRequestTopicV2 t,
   length_writeTo_fetchRequestV2 r,
   length_writeTo_fetchResponsePartitionV2 q,
   length_writeTo_fetchResponseTopicV2 u,
   length_writeTo_fetchResponseV2 w⟩
